import Mathlib

/-!
Shallow embedding of the profit/breakeven computation engine of the
profit-calculator repository.  Numbers are modelled as exact rationals;
the JavaScript value Infinity, produced by the margin-scenario generator
on degenerate target profits, is modelled by the value none of an Option
type (isFinite is then exactly Option.isSome).
-/

namespace ProfitCalc

/-- JS Math.round: rounds half toward positive infinity. -/
def jsRound (q : ℚ) : ℤ := ⌊q + 1 / 2⌋

/-- Round to two decimal places: Math.round(q * 100) / 100. -/
def round2 (q : ℚ) : ℚ := (jsRound (q * 100) : ℚ) / 100

/-- The fixed ordered set of target margins (calculator.tsx line 8). -/
def TARGET_MARGINS : List ℚ := [0, 0.10, 0.20, 0.30, 0.40, 0.50]

/-- CalcInputs of the refund-aware edition (calculator.tsx lines 417-428). -/
structure CalcInputs where
  sellingPrice : ℚ
  cogs : ℚ
  taxPercent : ℚ
  refundPercent : ℚ
  adSpend : ℚ
  feesPercent : ℚ
  feesCents : ℚ
  otherCostsPercent : ℚ
  fixedFeesPerUnit : ℚ
  monthlyOverhead : ℚ
deriving DecidableEq

/-- CalcInputs of the edition without a refundPercent field
(calculator.tsx lines 28-38). -/
structure CalcInputsNR where
  sellingPrice : ℚ
  cogs : ℚ
  taxPercent : ℚ
  adSpend : ℚ
  feesPercent : ℚ
  feesCents : ℚ
  otherCostsPercent : ℚ
  fixedFeesPerUnit : ℚ
  monthlyOverhead : ℚ
deriving DecidableEq

/-- Shape of the object returned by the results memo. -/
structure UnitEconomicsResult where
  hasSellingPrice : Bool
  breakevenRoas : ℚ
  breakevenUnits : ℤ
  profitPerUnit : ℚ
  hasAdSpend : Bool
deriving DecidableEq

/-- The results computation of the refund-aware edition
(calculator.tsx lines 585-604).  Over the rationals the JS guard
(!sellingPrice or sellingPrice <= 0) is exactly sellingPrice <= 0. -/
def computeUnitEconomics (c : CalcInputs) : UnitEconomicsResult :=
  if c.sellingPrice ≤ 0 then
    { hasSellingPrice := false, breakevenRoas := 0, breakevenUnits := 0,
      profitPerUnit := 0, hasAdSpend := false }
  else
    let grossMargin := c.sellingPrice - c.cogs - c.fixedFeesPerUnit
    let processingFees := c.sellingPrice * (c.feesPercent / 100) + c.feesCents / 100
    let taxCost := c.sellingPrice * (c.taxPercent / 100)
    let refundCost := c.sellingPrice * (c.refundPercent / 100)
    let otherCosts := c.sellingPrice * (c.otherCostsPercent / 100)
    let profitPerUnit := grossMargin - processingFees - taxCost - refundCost - otherCosts
    let fixedCosts := c.adSpend + c.monthlyOverhead
    let breakevenUnits := if 0 < profitPerUnit ∧ 0 < fixedCosts then ⌈fixedCosts / profitPerUnit⌉ else 0
    let breakevenRoas := if 0 < profitPerUnit then c.sellingPrice / profitPerUnit else 0
    { hasSellingPrice := true, breakevenRoas := breakevenRoas, breakevenUnits := breakevenUnits,
      profitPerUnit := profitPerUnit, hasAdSpend := decide (0 < c.adSpend) }

/-- The results computation of the edition without refundPercent
(calculator.tsx lines 169-187). -/
def computeUnitEconomicsNR (c : CalcInputsNR) : UnitEconomicsResult :=
  if c.sellingPrice ≤ 0 then
    { hasSellingPrice := false, breakevenRoas := 0, breakevenUnits := 0,
      profitPerUnit := 0, hasAdSpend := false }
  else
    let grossMargin := c.sellingPrice - c.cogs - c.fixedFeesPerUnit
    let processingFees := c.sellingPrice * (c.feesPercent / 100) + c.feesCents / 100
    let taxCost := c.sellingPrice * (c.taxPercent / 100)
    let otherCosts := c.sellingPrice * (c.otherCostsPercent / 100)
    let profitPerUnit := grossMargin - processingFees - taxCost - otherCosts
    let fixedCosts := c.adSpend + c.monthlyOverhead
    let breakevenUnits := if 0 < profitPerUnit ∧ 0 < fixedCosts then ⌈fixedCosts / profitPerUnit⌉ else 0
    let breakevenRoas := if 0 < profitPerUnit then c.sellingPrice / profitPerUnit else 0
    { hasSellingPrice := true, breakevenRoas := breakevenRoas, breakevenUnits := breakevenUnits,
      profitPerUnit := profitPerUnit, hasAdSpend := decide (0 < c.adSpend) }

/-- One row of the margin-scenario table.  breakevenRoas and
breakevenOrders are none when the source produces Infinity. -/
structure MarginScenario where
  margin : ℚ
  price : ℚ
  profit : ℚ
  breakevenRoas : Option ℚ
  breakevenOrders : Option ℤ
deriving DecidableEq

/-- The marginScenarios memo (calculator.tsx lines 566-583).  In the
source the record fields re-test isFinite on the two conditional values;
over the rationals the value of the then-branch is always finite, so
isFinite holds exactly on that branch. -/
def marginScenarioEntry (c : CalcInputs) (margin : ℚ) : MarginScenario :=
  let targetProfit := c.sellingPrice * margin
  { margin := margin
    price := c.sellingPrice
    profit := round2 targetProfit
    breakevenRoas := if 0.01 < targetProfit then some (round2 (c.sellingPrice / targetProfit)) else none
    breakevenOrders := if 0.01 < targetProfit then some ⌈c.adSpend / targetProfit⌉ else none }

def computeMarginScenarios (c : CalcInputs) : List MarginScenario :=
  TARGET_MARGINS.map (marginScenarioEntry c)

/-- The named Shopify payment plans (calculator.tsx line 43). -/
inductive ShopifyPlan
  | basic
  | shopify
  | advanced
  | custom
deriving DecidableEq

/-- The fee lookup table (calculator.tsx lines 45-50), as
(percent, cents) pairs. -/
def SHOPIFY_FEES : ShopifyPlan → ℚ × ℚ
  | .basic => (2.9, 30)
  | .shopify => (2.6, 30)
  | .advanced => (2.4, 30)
  | .custom => (0, 0)

/-- Keys of the refund-aware CalcInputs record, for the keyed update of
updateInput. -/
inductive CalcKey
  | sellingPrice
  | cogs
  | taxPercent
  | refundPercent
  | adSpend
  | feesPercent
  | feesCents
  | otherCostsPercent
  | fixedFeesPerUnit
  | monthlyOverhead
deriving DecidableEq

/-- The spread-update of one named field of the inputs record. -/
def setField (c : CalcInputs) : CalcKey → ℚ → CalcInputs
  | .sellingPrice, v => { c with sellingPrice := v }
  | .cogs, v => { c with cogs := v }
  | .taxPercent, v => { c with taxPercent := v }
  | .refundPercent, v => { c with refundPercent := v }
  | .adSpend, v => { c with adSpend := v }
  | .feesPercent, v => { c with feesPercent := v }
  | .feesCents, v => { c with feesCents := v }
  | .otherCostsPercent, v => { c with otherCostsPercent := v }
  | .fixedFeesPerUnit, v => { c with fixedFeesPerUnit := v }
  | .monthlyOverhead, v => { c with monthlyOverhead := v }

/-- The two pieces of React state the fee-plan resolver touches. -/
structure CalcState where
  inputs : CalcInputs
  shopifyPlan : ShopifyPlan
deriving DecidableEq

/-- updateInput (calculator.tsx lines 551-556): set the field, and if the
key is feesPercent or feesCents switch the plan to custom. -/
def updateInput (s : CalcState) (k : CalcKey) (v : ℚ) : CalcState :=
  { inputs := setField s.inputs k v,
    shopifyPlan :=
      if k = CalcKey.feesPercent ∨ k = CalcKey.feesCents then ShopifyPlan.custom
      else s.shopifyPlan }

/-- handlePlanChange (calculator.tsx lines 558-564): always set the plan;
for a named plan also overwrite the two fee fields from the table. -/
def handlePlanChange (s : CalcState) (p : ShopifyPlan) : CalcState :=
  { inputs :=
      if p ≠ ShopifyPlan.custom then
        { s.inputs with feesPercent := (SHOPIFY_FEES p).1, feesCents := (SHOPIFY_FEES p).2 }
      else s.inputs,
    shopifyPlan := p }

/-- CalcInputs of the preset/bundle edition (part_002 lines 24-33). -/
structure PBInputs where
  sellingPrice : ℚ
  cogs : ℚ
  adSpend : ℚ
  feesPercent : ℚ
  otherCostsPercent : ℚ
  fixedFeesPerUnit : ℚ
  monthlyOverhead : ℚ
  unitsSold : ℚ
deriving DecidableEq

/-- One bundle tier (part_002 lines 35-39). -/
structure BundleTier where
  quantity : ℚ
  price : ℚ
  cogsPerUnit : ℚ
deriving DecidableEq

/-- Per-tier output of the bundle comparator (part_002 lines 41-48). -/
structure BundleResults where
  quantity : ℚ
  price : ℚ
  totalCogs : ℚ
  profitPerOrder : ℚ
  breakevenRoas : ℚ
  breakevenOrders : ℤ
deriving DecidableEq

/-- The body of the per-tier map of bundleResults
(part_002 lines 213-221). -/
def bundleTierResult (c : PBInputs) (tier : BundleTier) : BundleResults :=
  let totalCogs := tier.cogsPerUnit * tier.quantity
  let fees := tier.price * (c.feesPercent / 100)
  let otherCosts := tier.price * (c.otherCostsPercent / 100)
  let profitPerOrder := tier.price - totalCogs - fees - otherCosts
  { quantity := tier.quantity
    price := tier.price
    totalCogs := totalCogs
    profitPerOrder := profitPerOrder
    breakevenRoas := if 0 < profitPerOrder then tier.price / profitPerOrder else 0
    breakevenOrders := if 0 < profitPerOrder then ⌈c.adSpend / profitPerOrder⌉ else 0 }

/-- The bundleResults memo (part_002 lines 210-222): empty unless bundle
mode is on, otherwise an independent map over the tiers. -/
def bundleResults (bundleMode : Bool) (c : PBInputs) (tiers : List BundleTier) : List BundleResults :=
  if bundleMode then tiers.map (bundleTierResult c) else []

/-- Output of the preset/bundle edition's single-point results memo. -/
structure PBResult where
  isValid : Bool
  breakevenRoas : ℚ
  breakevenUnits : ℤ
  profitPerUnit : ℚ
deriving DecidableEq

/-- The results memo of the preset/bundle edition
(part_002 lines 224-244). -/
def computePBResults (c : PBInputs) : PBResult :=
  if c.sellingPrice ≤ 0 ∨ c.sellingPrice ≤ c.cogs then
    { isValid := false, breakevenRoas := 0, breakevenUnits := 0, profitPerUnit := 0 }
  else
    let grossMargin := c.sellingPrice - c.cogs - c.fixedFeesPerUnit
    let variableCosts := c.sellingPrice * ((c.feesPercent + c.otherCostsPercent) / 100)
    let profitPerUnit := grossMargin - variableCosts
    if profitPerUnit ≤ 0 then
      { isValid := false, breakevenRoas := 0, breakevenUnits := 0, profitPerUnit := profitPerUnit }
    else
      let fixedCosts := c.adSpend + c.monthlyOverhead
      let breakevenUnits := if 0 < fixedCosts then ⌈fixedCosts / profitPerUnit⌉ else 0
      let breakevenRoas := if 0 < c.adSpend ∧ 0 < profitPerUnit then c.sellingPrice / profitPerUnit else 0
      { isValid := true, breakevenRoas := breakevenRoas, breakevenUnits := breakevenUnits,
        profitPerUnit := profitPerUnit }

/-- The profit-per-unit formula of the preset/bundle edition, written
out (part_002 lines 231-233). -/
def pbProfitPerUnit (c : PBInputs) : ℚ :=
  c.sellingPrice - c.cogs - c.fixedFeesPerUnit
    - c.sellingPrice * ((c.feesPercent + c.otherCostsPercent) / 100)

/-- A sample refund-aware configuration (the spec's worked example). -/
def sampleCfg : CalcInputs :=
  { sellingPrice := 50, cogs := 10, taxPercent := 0, refundPercent := 0, adSpend := 0,
    feesPercent := 2.9, feesCents := 30, otherCostsPercent := 0,
    fixedFeesPerUnit := 0, monthlyOverhead := 0 }

/-- The same sample for the edition without refundPercent. -/
def sampleCfgNR : CalcInputsNR :=
  { sellingPrice := 50, cogs := 10, taxPercent := 0, adSpend := 0,
    feesPercent := 2.9, feesCents := 30, otherCostsPercent := 0,
    fixedFeesPerUnit := 0, monthlyOverhead := 0 }

/-- A degenerate configuration with zero selling price. -/
def zeroCfg : CalcInputs :=
  { sellingPrice := 0, cogs := 10, taxPercent := 0, refundPercent := 0, adSpend := 0,
    feesPercent := 2.9, feesCents := 30, otherCostsPercent := 0,
    fixedFeesPerUnit := 0, monthlyOverhead := 0 }

/-- The zero-selling-price sample for the edition without refundPercent. -/
def zeroCfgNR : CalcInputsNR :=
  { sellingPrice := 0, cogs := 10, taxPercent := 0, adSpend := 0,
    feesPercent := 2.9, feesCents := 30, otherCostsPercent := 0,
    fixedFeesPerUnit := 0, monthlyOverhead := 0 }

/-- C1: for every configuration with sellingPrice > 0, the engine returns
profitPerUnit equal to sellingPrice minus cogs, minus fixedFeesPerUnit,
minus processingFees, minus taxCost, minus refundCost (zero in the
edition without a refundPercent field), minus otherCosts, each
percentage cost computed against sellingPrice. -/
theorem profitPerUnit_formula (c : CalcInputs) (n : CalcInputsNR)
    (hc : 0 < c.sellingPrice) (hn : 0 < n.sellingPrice) :
    (computeUnitEconomics c).profitPerUnit
      = c.sellingPrice - c.cogs - c.fixedFeesPerUnit
        - (c.sellingPrice * (c.feesPercent / 100) + c.feesCents / 100)
        - c.sellingPrice * (c.taxPercent / 100)
        - c.sellingPrice * (c.refundPercent / 100)
        - c.sellingPrice * (c.otherCostsPercent / 100)
    ∧ (computeUnitEconomicsNR n).profitPerUnit
      = n.sellingPrice - n.cogs - n.fixedFeesPerUnit
        - (n.sellingPrice * (n.feesPercent / 100) + n.feesCents / 100)
        - n.sellingPrice * (n.taxPercent / 100)
        - 0
        - n.sellingPrice * (n.otherCostsPercent / 100) := by
  constructor
  · simp only [computeUnitEconomics, if_neg (not_le.mpr hc)]
  · simp only [computeUnitEconomicsNR, if_neg (not_le.mpr hn)]
    ring

/-- Witness for C1 at the spec's worked example. -/
theorem profitPerUnit_formula_witness :
    (0 : ℚ) < 50
    ∧ (computeUnitEconomics sampleCfg).profitPerUnit = 38.25
    ∧ (computeUnitEconomicsNR sampleCfgNR).profitPerUnit = 38.25 := by
  refine ⟨by norm_num, ?_, ?_⟩
  · rw [(profitPerUnit_formula sampleCfg sampleCfgNR (by norm_num [sampleCfg])
      (by norm_num [sampleCfgNR])).1]
    norm_num [sampleCfg]
  · rw [(profitPerUnit_formula sampleCfg sampleCfgNR (by norm_num [sampleCfg])
      (by norm_num [sampleCfgNR])).2]
    norm_num [sampleCfgNR]

/-- C2: for every configuration with sellingPrice > 0, breakevenRoas is
sellingPrice / profitPerUnit when profitPerUnit > 0 and 0 otherwise,
breakevenUnits is the ceiling of (adSpend + monthlyOverhead) /
profitPerUnit when profitPerUnit > 0 and the fixed costs are positive
and 0 otherwise; in particular both outputs are 0 whenever
profitPerUnit <= 0.  Stated for both editions of the engine. -/
theorem breakeven_formula (c : CalcInputs) (n : CalcInputsNR)
    (hc : 0 < c.sellingPrice) (hn : 0 < n.sellingPrice) :
    ((computeUnitEconomics c).breakevenRoas =
        if 0 < (computeUnitEconomics c).profitPerUnit then
          c.sellingPrice / (computeUnitEconomics c).profitPerUnit else 0)
    ∧ ((computeUnitEconomics c).breakevenUnits =
        if 0 < (computeUnitEconomics c).profitPerUnit ∧ 0 < c.adSpend + c.monthlyOverhead then
          ⌈(c.adSpend + c.monthlyOverhead) / (computeUnitEconomics c).profitPerUnit⌉ else 0)
    ∧ ((computeUnitEconomics c).profitPerUnit ≤ 0 →
        (computeUnitEconomics c).breakevenRoas = 0 ∧ (computeUnitEconomics c).breakevenUnits = 0)
    ∧ ((computeUnitEconomicsNR n).breakevenRoas =
        if 0 < (computeUnitEconomicsNR n).profitPerUnit then
          n.sellingPrice / (computeUnitEconomicsNR n).profitPerUnit else 0)
    ∧ ((computeUnitEconomicsNR n).breakevenUnits =
        if 0 < (computeUnitEconomicsNR n).profitPerUnit ∧ 0 < n.adSpend + n.monthlyOverhead then
          ⌈(n.adSpend + n.monthlyOverhead) / (computeUnitEconomicsNR n).profitPerUnit⌉ else 0)
    ∧ ((computeUnitEconomicsNR n).profitPerUnit ≤ 0 →
        (computeUnitEconomicsNR n).breakevenRoas = 0 ∧ (computeUnitEconomicsNR n).breakevenUnits = 0) := by
  simp only [computeUnitEconomics, computeUnitEconomicsNR,
    if_neg (not_le.mpr hc), if_neg (not_le.mpr hn)]
  refine ⟨True.intro, True.intro, fun h => ?_, True.intro, True.intro, fun h => ?_⟩
  · exact ⟨if_neg (not_lt.mpr h), if_neg (fun hh => (not_lt.mpr h) hh.1)⟩
  · exact ⟨if_neg (not_lt.mpr h), if_neg (fun hh => (not_lt.mpr h) hh.1)⟩

/-- Witness for C2 at the spec's worked example: profitPerUnit is 38.25,
there are no fixed costs, so breakevenRoas is 50 / 38.25 and
breakevenUnits is 0. -/
theorem breakeven_formula_witness :
    (computeUnitEconomics sampleCfg).breakevenRoas = 50 / 38.25
    ∧ (computeUnitEconomics sampleCfg).breakevenUnits = 0 := by
  have h := breakeven_formula sampleCfg sampleCfgNR (by norm_num [sampleCfg])
    (by norm_num [sampleCfgNR])
  have hp : (computeUnitEconomics sampleCfg).profitPerUnit = 38.25 := by
    norm_num [computeUnitEconomics, sampleCfg]
  constructor
  · rw [h.1, hp, if_pos (by norm_num)]
    norm_num [sampleCfg]
  · rw [h.2.1, hp, if_neg (by norm_num [sampleCfg])]

/-- C3: for every configuration with sellingPrice <= 0, both editions of
the engine return the invalid sentinel: hasSellingPrice false and every
numeric output zero. -/
theorem invalid_sentinel (c : CalcInputs) (n : CalcInputsNR)
    (hc : c.sellingPrice ≤ 0) (hn : n.sellingPrice ≤ 0) :
    computeUnitEconomics c =
      { hasSellingPrice := false, breakevenRoas := 0, breakevenUnits := 0,
        profitPerUnit := 0, hasAdSpend := false }
    ∧ computeUnitEconomicsNR n =
      { hasSellingPrice := false, breakevenRoas := 0, breakevenUnits := 0,
        profitPerUnit := 0, hasAdSpend := false } :=
  ⟨by simp only [computeUnitEconomics, if_pos hc],
   by simp only [computeUnitEconomicsNR, if_pos hn]⟩

/-- Witness for C3 at a configuration with zero selling price. -/
theorem invalid_sentinel_witness :
    zeroCfg.sellingPrice ≤ 0
    ∧ computeUnitEconomics zeroCfg =
      { hasSellingPrice := false, breakevenRoas := 0, breakevenUnits := 0,
        profitPerUnit := 0, hasAdSpend := false }
    ∧ computeUnitEconomicsNR zeroCfgNR =
      { hasSellingPrice := false, breakevenRoas := 0, breakevenUnits := 0,
        profitPerUnit := 0, hasAdSpend := false } :=
  ⟨by norm_num [zeroCfg],
   (invalid_sentinel zeroCfg zeroCfgNR (by norm_num [zeroCfg]) (by norm_num [zeroCfgNR])).1,
   (invalid_sentinel zeroCfg zeroCfgNR (by norm_num [zeroCfg]) (by norm_num [zeroCfgNR])).2⟩

/-- C4: for every configuration and every target margin m of the fixed
set, the scenario table has an entry whose profit is sellingPrice * m
rounded to two decimals, whose breakevenRoas is sellingPrice /
(sellingPrice * m) rounded to two decimals when sellingPrice * m > 0.01
and Infinity (none) otherwise, and whose breakevenOrders is the ceiling
of adSpend / (sellingPrice * m) under the same guard. -/
theorem margin_scenarios_entry (c : CalcInputs) (m : ℚ) (hm : m ∈ TARGET_MARGINS) :
    ∃ s ∈ computeMarginScenarios c,
      s.margin = m
      ∧ s.price = c.sellingPrice
      ∧ s.profit = round2 (c.sellingPrice * m)
      ∧ s.breakevenRoas =
          (if 0.01 < c.sellingPrice * m then
            some (round2 (c.sellingPrice / (c.sellingPrice * m))) else none)
      ∧ s.breakevenOrders =
          (if 0.01 < c.sellingPrice * m then
            some ⌈c.adSpend / (c.sellingPrice * m)⌉ else none) :=
  ⟨_, List.mem_map_of_mem _ hm, rfl, rfl, rfl, rfl, rfl⟩

/-- Witness for C4 at the spec's worked example and margin 0.20. -/
theorem margin_scenarios_entry_witness :
    (0.20 : ℚ) ∈ TARGET_MARGINS
    ∧ ∃ s ∈ computeMarginScenarios sampleCfg,
        s.margin = 0.20
        ∧ s.price = sampleCfg.sellingPrice
        ∧ s.profit = round2 (sampleCfg.sellingPrice * 0.20)
        ∧ s.breakevenRoas =
            (if 0.01 < sampleCfg.sellingPrice * 0.20 then
              some (round2 (sampleCfg.sellingPrice / (sampleCfg.sellingPrice * 0.20))) else none)
        ∧ s.breakevenOrders =
            (if 0.01 < sampleCfg.sellingPrice * 0.20 then
              some ⌈sampleCfg.adSpend / (sampleCfg.sellingPrice * 0.20)⌉ else none) :=
  ⟨by norm_num [TARGET_MARGINS],
   margin_scenarios_entry sampleCfg 0.20 (by norm_num [TARGET_MARGINS])⟩

/-- C5: the scenario table always has exactly 6 rows, one per target
margin, in the order of the fixed margin set, which is strictly
ascending. -/
theorem margin_scenarios_shape (c : CalcInputs) :
    (computeMarginScenarios c).length = 6
    ∧ (computeMarginScenarios c).map (fun s => s.margin) = TARGET_MARGINS
    ∧ List.Chain' (fun a b => a < b) ((computeMarginScenarios c).map (fun s => s.margin)) := by
  refine ⟨rfl, rfl, ?_⟩
  show List.Chain' (fun a b : ℚ => a < b) [0, 0.10, 0.20, 0.30, 0.40, 0.50]
  norm_num [List.chain'_cons, List.chain'_singleton]

/-- C6: holding every other field constant, a strictly larger cogs gives
a strictly smaller profitPerUnit, in both editions of the engine. -/
theorem cogs_strict_mono (c : CalcInputs) (n : CalcInputsNR) (k1 k2 : ℚ)
    (hc : 0 < c.sellingPrice) (hn : 0 < n.sellingPrice) (hk : k1 < k2) :
    (computeUnitEconomics { c with cogs := k2 }).profitPerUnit
      < (computeUnitEconomics { c with cogs := k1 }).profitPerUnit
    ∧ (computeUnitEconomicsNR { n with cogs := k2 }).profitPerUnit
      < (computeUnitEconomicsNR { n with cogs := k1 }).profitPerUnit := by
  constructor
  · simp only [computeUnitEconomics, if_neg (not_le.mpr hc)]
    linarith
  · simp only [computeUnitEconomicsNR, if_neg (not_le.mpr hn)]
    linarith

/-- Witness for C6: raising cogs from 10 to 20 at the worked example
strictly lowers profitPerUnit in both editions. -/
theorem cogs_strict_mono_witness :
    (0 : ℚ) < 50 ∧ (10 : ℚ) < 20
    ∧ (computeUnitEconomics { sampleCfg with cogs := 20 }).profitPerUnit
      < (computeUnitEconomics { sampleCfg with cogs := 10 }).profitPerUnit
    ∧ (computeUnitEconomicsNR { sampleCfgNR with cogs := 20 }).profitPerUnit
      < (computeUnitEconomicsNR { sampleCfgNR with cogs := 10 }).profitPerUnit :=
  ⟨by norm_num, by norm_num,
   (cogs_strict_mono sampleCfg sampleCfgNR 10 20 (by norm_num [sampleCfg])
     (by norm_num [sampleCfgNR]) (by norm_num)).1,
   (cogs_strict_mono sampleCfg sampleCfgNR 10 20 (by norm_num [sampleCfg])
     (by norm_num [sampleCfgNR]) (by norm_num)).2⟩

/-- C7: the engine is total and crash-free: on every input it returns a
value, and every degenerate input degrades to a sentinel instead of a
division being taken unguarded — non-positive selling price gives the
invalid sentinel, non-positive profit gives zero breakeven outputs,
non-positive fixed costs give zero breakevenUnits, and scenario rows
whose target profit is at most 0.01 carry Infinity (none) in both
guarded fields. -/
theorem engine_totality_sentinels (c : CalcInputs) (n : CalcInputsNR) :
    (c.sellingPrice ≤ 0 → computeUnitEconomics c =
      { hasSellingPrice := false, breakevenRoas := 0, breakevenUnits := 0,
        profitPerUnit := 0, hasAdSpend := false })
    ∧ ((computeUnitEconomics c).profitPerUnit ≤ 0 →
        (computeUnitEconomics c).breakevenRoas = 0
        ∧ (computeUnitEconomics c).breakevenUnits = 0)
    ∧ (c.adSpend + c.monthlyOverhead ≤ 0 → (computeUnitEconomics c).breakevenUnits = 0)
    ∧ (n.sellingPrice ≤ 0 → computeUnitEconomicsNR n =
      { hasSellingPrice := false, breakevenRoas := 0, breakevenUnits := 0,
        profitPerUnit := 0, hasAdSpend := false })
    ∧ ((computeUnitEconomicsNR n).profitPerUnit ≤ 0 →
        (computeUnitEconomicsNR n).breakevenRoas = 0
        ∧ (computeUnitEconomicsNR n).breakevenUnits = 0)
    ∧ (n.adSpend + n.monthlyOverhead ≤ 0 → (computeUnitEconomicsNR n).breakevenUnits = 0)
    ∧ (∀ s ∈ computeMarginScenarios c, c.sellingPrice * s.margin ≤ 0.01 →
        s.breakevenRoas = none ∧ s.breakevenOrders = none) := by
  refine ⟨fun h => by simp only [computeUnitEconomics, if_pos h], ?_, ?_,
    fun h => by simp only [computeUnitEconomicsNR, if_pos h], ?_, ?_, ?_⟩
  · by_cases hsp : c.sellingPrice ≤ 0
    · intro _
      simp [computeUnitEconomics, if_pos hsp]
    · simp only [computeUnitEconomics, if_neg hsp]
      intro h
      exact ⟨if_neg (not_lt.mpr h), if_neg (fun hh => (not_lt.mpr h) hh.1)⟩
  · by_cases hsp : c.sellingPrice ≤ 0
    · intro _
      simp [computeUnitEconomics, if_pos hsp]
    · simp only [computeUnitEconomics, if_neg hsp]
      intro h
      exact if_neg (fun hh => (not_lt.mpr h) hh.2)
  · by_cases hsp : n.sellingPrice ≤ 0
    · intro _
      simp [computeUnitEconomicsNR, if_pos hsp]
    · simp only [computeUnitEconomicsNR, if_neg hsp]
      intro h
      exact ⟨if_neg (not_lt.mpr h), if_neg (fun hh => (not_lt.mpr h) hh.1)⟩
  · by_cases hsp : n.sellingPrice ≤ 0
    · intro _
      simp [computeUnitEconomicsNR, if_pos hsp]
    · simp only [computeUnitEconomicsNR, if_neg hsp]
      intro h
      exact if_neg (fun hh => (not_lt.mpr h) hh.2)
  · intro s hs hle
    obtain ⟨m, hmem, rfl⟩ := List.mem_map.1 hs
    exact ⟨if_neg (not_lt.mpr hle), if_neg (not_lt.mpr hle)⟩

/-- Witness for C7 at the zero-price configuration: every sentinel case
fires at once and the margin-0 scenario row carries Infinity twice. -/
theorem engine_totality_sentinels_witness :
    zeroCfg.sellingPrice ≤ 0
    ∧ computeUnitEconomics zeroCfg =
      { hasSellingPrice := false, breakevenRoas := 0, breakevenUnits := 0,
        profitPerUnit := 0, hasAdSpend := false }
    ∧ (computeUnitEconomics zeroCfg).breakevenRoas = 0
    ∧ (computeUnitEconomics zeroCfg).breakevenUnits = 0
    ∧ computeUnitEconomicsNR zeroCfgNR =
      { hasSellingPrice := false, breakevenRoas := 0, breakevenUnits := 0,
        profitPerUnit := 0, hasAdSpend := false }
    ∧ ∃ s ∈ computeMarginScenarios zeroCfg,
        s.breakevenRoas = none ∧ s.breakevenOrders = none := by
  have h := engine_totality_sentinels zeroCfg zeroCfgNR
  have hsent := h.1 (by norm_num [zeroCfg])
  have hppu : (computeUnitEconomics zeroCfg).profitPerUnit ≤ 0 := by
    rw [hsent]
  have hmem : (0 : ℚ) ∈ TARGET_MARGINS := by norm_num [TARGET_MARGINS]
  refine ⟨by norm_num [zeroCfg], hsent, (h.2.1 hppu).1, (h.2.1 hppu).2,
    h.2.2.2.1 (by norm_num [zeroCfgNR]), ?_⟩
  refine ⟨marginScenarioEntry zeroCfg 0, List.mem_map_of_mem _ hmem, ?_⟩
  exact h.2.2.2.2.2.2 _ (List.mem_map_of_mem _ hmem)
    (by norm_num [marginScenarioEntry, zeroCfg])

/-- C8: per-tier bundle arithmetic — totalCogs, profitPerOrder with fees
and otherCosts computed against the tier price, positivity-guarded
breakevenRoas and breakevenOrders — and the comparator is an independent
per-tier map with no cross-tier interaction. -/
theorem bundle_tier_formula (c : PBInputs) (t : BundleTier) :
    (bundleTierResult c t).totalCogs = t.cogsPerUnit * t.quantity
    ∧ (bundleTierResult c t).profitPerOrder
        = t.price - t.cogsPerUnit * t.quantity
          - t.price * (c.feesPercent / 100) - t.price * (c.otherCostsPercent / 100)
    ∧ (bundleTierResult c t).breakevenRoas =
        (if 0 < (bundleTierResult c t).profitPerOrder then
          t.price / (bundleTierResult c t).profitPerOrder else 0)
    ∧ (bundleTierResult c t).breakevenOrders =
        (if 0 < (bundleTierResult c t).profitPerOrder then
          ⌈c.adSpend / (bundleTierResult c t).profitPerOrder⌉ else 0)
    ∧ ∀ tiers : List BundleTier,
        bundleResults true c tiers = tiers.map (bundleTierResult c) :=
  ⟨rfl, rfl, rfl, rfl, fun _ => rfl⟩

/-- State used by the fee-plan resolver witness. -/
def sampleState : CalcState :=
  { inputs := sampleCfg, shopifyPlan := ShopifyPlan.custom }

/-- C9: selecting a named plan overwrites exactly the two fee fields
with the canonical pair from the table and records the plan; editing
either fee field switches the plan to custom, sets only that field, and
leaves every other configuration field untouched. -/
theorem fee_plan_resolver (s : CalcState) (p : ShopifyPlan) (k : CalcKey) (v : ℚ)
    (hp : p ≠ ShopifyPlan.custom) (hk : k = CalcKey.feesPercent ∨ k = CalcKey.feesCents) :
    ((handlePlanChange s p).inputs.feesPercent = (SHOPIFY_FEES p).1
     ∧ (handlePlanChange s p).inputs.feesCents = (SHOPIFY_FEES p).2
     ∧ (handlePlanChange s p).shopifyPlan = p
     ∧ (handlePlanChange s p).inputs.sellingPrice = s.inputs.sellingPrice
     ∧ (handlePlanChange s p).inputs.cogs = s.inputs.cogs
     ∧ (handlePlanChange s p).inputs.taxPercent = s.inputs.taxPercent
     ∧ (handlePlanChange s p).inputs.refundPercent = s.inputs.refundPercent
     ∧ (handlePlanChange s p).inputs.adSpend = s.inputs.adSpend
     ∧ (handlePlanChange s p).inputs.otherCostsPercent = s.inputs.otherCostsPercent
     ∧ (handlePlanChange s p).inputs.fixedFeesPerUnit = s.inputs.fixedFeesPerUnit
     ∧ (handlePlanChange s p).inputs.monthlyOverhead = s.inputs.monthlyOverhead)
    ∧ ((updateInput s k v).shopifyPlan = ShopifyPlan.custom
     ∧ (updateInput s k v).inputs.sellingPrice = s.inputs.sellingPrice
     ∧ (updateInput s k v).inputs.cogs = s.inputs.cogs
     ∧ (updateInput s k v).inputs.taxPercent = s.inputs.taxPercent
     ∧ (updateInput s k v).inputs.refundPercent = s.inputs.refundPercent
     ∧ (updateInput s k v).inputs.adSpend = s.inputs.adSpend
     ∧ (updateInput s k v).inputs.otherCostsPercent = s.inputs.otherCostsPercent
     ∧ (updateInput s k v).inputs.fixedFeesPerUnit = s.inputs.fixedFeesPerUnit
     ∧ (updateInput s k v).inputs.monthlyOverhead = s.inputs.monthlyOverhead
     ∧ (k = CalcKey.feesPercent →
         (updateInput s k v).inputs.feesPercent = v
         ∧ (updateInput s k v).inputs.feesCents = s.inputs.feesCents)
     ∧ (k = CalcKey.feesCents →
         (updateInput s k v).inputs.feesCents = v
         ∧ (updateInput s k v).inputs.feesPercent = s.inputs.feesPercent)) := by
  constructor
  · simp [handlePlanChange, if_pos hp]
  · rcases hk with rfl | rfl <;> simp [updateInput, setField]

/-- Witness for C9: choosing the basic plan from a custom state writes
the canonical 2.9 percent and 30 cents, and editing the percent field
flips the plan back to custom. -/
theorem fee_plan_resolver_witness :
    ShopifyPlan.basic ≠ ShopifyPlan.custom
    ∧ (handlePlanChange sampleState ShopifyPlan.basic).inputs.feesPercent = 2.9
    ∧ (handlePlanChange sampleState ShopifyPlan.basic).inputs.feesCents = 30
    ∧ (handlePlanChange sampleState ShopifyPlan.basic).shopifyPlan = ShopifyPlan.basic
    ∧ (updateInput sampleState CalcKey.feesPercent 5).shopifyPlan = ShopifyPlan.custom
    ∧ (updateInput sampleState CalcKey.feesPercent 5).inputs.feesPercent = 5 := by
  obtain ⟨⟨hfp, hfc, hpl, -⟩, hcust, -, -, -, -, -, -, -, -, hedit, -⟩ :=
    fee_plan_resolver sampleState ShopifyPlan.basic CalcKey.feesPercent 5
      (by decide) (Or.inl rfl)
  exact ⟨by decide, hfp, hfc, hpl, hcust, (hedit rfl).1⟩

/-- The results memo of the preset/bundle edition, written as a single
case split over pbProfitPerUnit. -/
theorem computePBResults_eq (c : PBInputs) :
    computePBResults c =
      if c.sellingPrice ≤ 0 ∨ c.sellingPrice ≤ c.cogs then
        { isValid := false, breakevenRoas := 0, breakevenUnits := 0, profitPerUnit := 0 }
      else if pbProfitPerUnit c ≤ 0 then
        { isValid := false, breakevenRoas := 0, breakevenUnits := 0,
          profitPerUnit := pbProfitPerUnit c }
      else
        { isValid := true,
          breakevenRoas :=
            if 0 < c.adSpend ∧ 0 < pbProfitPerUnit c then
              c.sellingPrice / pbProfitPerUnit c else 0,
          breakevenUnits :=
            if 0 < c.adSpend + c.monthlyOverhead then
              ⌈(c.adSpend + c.monthlyOverhead) / pbProfitPerUnit c⌉ else 0,
          profitPerUnit := pbProfitPerUnit c } := rfl

/-- C10: in the preset/bundle edition, breakevenRoas is 0 (not
sellingPrice / profitPerUnit) when adSpend is 0 even with positive
profit, breakevenRoas is positive only when both profit and adSpend are
positive, and cogs at or above sellingPrice or non-positive profit give
the invalid sentinel even though sellingPrice > 0. -/
theorem pb_results_guards (c : PBInputs) (h : 0 < c.sellingPrice) :
    (0 < pbProfitPerUnit c → c.adSpend = 0 →
        (computePBResults c).breakevenRoas = 0
        ∧ (computePBResults c).breakevenRoas ≠ c.sellingPrice / pbProfitPerUnit c)
    ∧ (¬ (0 < pbProfitPerUnit c ∧ 0 < c.adSpend) → (computePBResults c).breakevenRoas = 0)
    ∧ (c.sellingPrice ≤ c.cogs ∨ pbProfitPerUnit c ≤ 0 →
        (computePBResults c).isValid = false
        ∧ (computePBResults c).breakevenRoas = 0
        ∧ (computePBResults c).breakevenUnits = 0) := by
  by_cases h1 : c.sellingPrice ≤ 0 ∨ c.sellingPrice ≤ c.cogs
  · rw [computePBResults_eq, if_pos h1]
    exact ⟨fun hp _ => ⟨rfl, ne_of_lt (div_pos h hp)⟩, fun _ => rfl,
      fun _ => ⟨rfl, rfl, rfl⟩⟩
  · by_cases h2 : pbProfitPerUnit c ≤ 0
    · rw [computePBResults_eq, if_neg h1, if_pos h2]
      exact ⟨fun hp _ => absurd hp (not_lt.mpr h2), fun _ => rfl,
        fun _ => ⟨rfl, rfl, rfl⟩⟩
    · rw [computePBResults_eq, if_neg h1, if_neg h2]
      dsimp only
      refine ⟨fun hp ha => ?_, fun hno => ?_, fun hd => ?_⟩
      · have hcond : ¬ (0 < c.adSpend ∧ 0 < pbProfitPerUnit c) := by
          intro hh
          rw [ha] at hh
          exact lt_irrefl 0 hh.1
        rw [if_neg hcond]
        exact ⟨rfl, ne_of_lt (div_pos h hp)⟩
      · exact if_neg (fun hh => hno ⟨hh.2, hh.1⟩)
      · rcases hd with hd | hd
        · exact absurd (Or.inr hd) h1
        · exact absurd hd h2

/-- Valid preset/bundle configuration with zero ad spend. -/
def pbSample : PBInputs :=
  { sellingPrice := 50, cogs := 10, adSpend := 0, feesPercent := 0,
    otherCostsPercent := 0, fixedFeesPerUnit := 0, monthlyOverhead := 0, unitsSold := 0 }

/-- Preset/bundle configuration with cogs above the selling price. -/
def pbBad : PBInputs :=
  { sellingPrice := 50, cogs := 60, adSpend := 0, feesPercent := 0,
    otherCostsPercent := 0, fixedFeesPerUnit := 0, monthlyOverhead := 0, unitsSold := 0 }

/-- Witness for C10: with price 50, cogs 10 and no ad spend the
breakevenRoas is 0, and with cogs 60 above price 50 the result is the
invalid sentinel. -/
theorem pb_results_guards_witness :
    (0 : ℚ) < 50
    ∧ (computePBResults pbSample).breakevenRoas = 0
    ∧ (computePBResults pbBad).isValid = false
    ∧ (computePBResults pbBad).breakevenRoas = 0
    ∧ (computePBResults pbBad).breakevenUnits = 0 := by
  have h1 := pb_results_guards pbSample (by norm_num [pbSample])
  have h2 := pb_results_guards pbBad (by norm_num [pbBad])
  obtain ⟨ha, hb, hc⟩ := h2.2.2 (Or.inl (by norm_num [pbBad]))
  exact ⟨by norm_num,
    (h1.1 (by norm_num [pbProfitPerUnit, pbSample]) (by norm_num [pbSample])).1,
    ha, hb, hc⟩

end ProfitCalc
